import Mathlib

/-!
Shallow embedding of the QuickGrab transaction-lifecycle routes and the
message-notification poller, with theorems checking the specification's
claims against the code.

Sources embedded:
* `src/app/api/transactions/pay/route.ts` (POST, pay)
* `src/app/api/transactions/[id]/meetup/route.ts` (POST, setMeetup)
* `src/app/api/transactions/[id]/mark-paid/route.ts` (POST, markPaid)
* `src/unnamed/part_002` = confirm-delivery route (POST, confirmDelivery)
* `src/app/api/transactions/[id]/mark-received/route.ts` (POST, markReceived)
* `src/app/api/transactions/[id]/messages/new/route.ts` (GET)
* `src/lib/services/message-notifier.ts` (MessageNotifier.checkForNewMessages)

Conventions: timestamps are milliseconds since the epoch, modelled as `Int`
(the notifier's ISO-8601 strings order exactly as their instants);
JavaScript numbers holding rates and ratings are modelled as `ℚ` (the
routes only multiply and divide them); Prisma rows loaded by a route are
passed in as explicit arguments; each awaited Prisma write is one commit
point.  The trust engine (`src/lib/services/trust-engine.ts`) is imported
by the routes but its source is not in the repository snapshot; since
every claim uses it opaquely, the route models take the two engine
functions `calculateTrustScore` and `getEarnedBadges` as parameters.
-/

namespace QuickGrab

/-- Transaction lifecycle states (spec section 4.1 / Prisma enum). -/
inductive TxStatus where
  | REQUESTED
  | ACCEPTED
  | PAID
  | MEETING
  | COMPLETED
  | CANCELLED
  | REFUNDED
deriving DecidableEq, Repr

/-- The string the TypeScript code interpolates for a status. -/
def TxStatus.name : TxStatus → String
  | .REQUESTED => "REQUESTED"
  | .ACCEPTED => "ACCEPTED"
  | .PAID => "PAID"
  | .MEETING => "MEETING"
  | .COMPLETED => "COMPLETED"
  | .CANCELLED => "CANCELLED"
  | .REFUNDED => "REFUNDED"

/-- User row, projected to the fields the embedded routes read or write. -/
structure User where
  id : String
  name : String
  verificationStatus : String
  avgRating : ℚ
  completedDeals : Nat
  cancellationRate : ℚ
  trustScore : Int
  badges : List String
deriving DecidableEq, Repr

/-- Item row, projected to the fields the embedded routes touch. -/
structure Item where
  id : String
  availabilityStatus : String
deriving DecidableEq, Repr

/-- Transaction row, projected to the fields the embedded routes touch. -/
structure Transaction where
  id : String
  buyerId : String
  sellerId : String
  itemId : String
  status : TxStatus
  paymentId : Option String
  meetupLocation : Option String
  countdownStart : Option Int
  countdownEnd : Option Int
deriving DecidableEq, Repr

/-- The related rows a transaction route loads (`include: seller, buyer, item`). -/
structure TxContext where
  txn : Transaction
  item : Item
  seller : User
  buyer : User
deriving DecidableEq, Repr

/-- An error response: HTTP status code and `error` body field. -/
structure ErrResp where
  code : Nat
  msg : String
deriving DecidableEq, Repr

/-- Outcome of a mutating route: the response and the store visible afterwards
(`store = db` on every error path, because each handler returns before any
Prisma write; on success it is the updated row set). -/
structure RouteOut where
  resp : Except ErrResp Unit
  store : Option TxContext
deriving Repr

/-- Argument record of `calculateTrustScore` in the mark-received route. -/
structure TrustInput where
  verificationStatus : String
  avgRating : ℚ
  completedDeals : Nat
  cancellationRate : ℚ
deriving DecidableEq, Repr

/-- Argument record of `getEarnedBadges` in the mark-received route. -/
structure BadgeInput where
  completedDeals : Nat
  avgRating : ℚ
  cancellationRate : ℚ
deriving DecidableEq, Repr

/-- 24 hours in milliseconds: `MEETUP_TIMEOUT_HOURS * 60 * 60 * 1000`. -/
def MEETUP_TIMEOUT_MS : Int := 24 * 60 * 60 * 1000

/-- POST `/api/transactions/pay` (src/app/api/transactions/pay/route.ts).
`userId` is the resolved caller (`none` = unauthenticated), `validBody`
whether `payTransactionSchema.safeParse` succeeded, `db` the row
`findUnique` returns.  The handler reads the clock twice on success:
`now1` is `new Date()` for `countdownStart`, `now2` is the later
`Date.now()` used for `countdownEnd = now2 + 24h`. -/
def payPOST (userId : Option String) (validBody : Bool) (paymentId : String)
    (db : Option TxContext) (now1 now2 : Int) : RouteOut :=
  match userId with
  | none => ⟨.error ⟨401, "Unauthorized"⟩, db⟩
  | some uid =>
    if ¬ validBody then ⟨.error ⟨400, "Validation failed"⟩, db⟩
    else match db with
    | none => ⟨.error ⟨404, "Transaction not found"⟩, db⟩
    | some ctx =>
      if ctx.txn.buyerId ≠ uid then
        ⟨.error ⟨403, "Only the buyer can pay for this transaction"⟩, db⟩
      else if ctx.txn.status ≠ .ACCEPTED then
        ⟨.error ⟨400, "Cannot pay for transaction in " ++ ctx.txn.status.name ++ " status"⟩, db⟩
      else
        let ctx2 := { ctx with txn := { ctx.txn with
          status := .PAID
          paymentId := some paymentId
          countdownStart := some now1
          countdownEnd := some (now2 + MEETUP_TIMEOUT_MS) } }
        ⟨.ok (), some ctx2⟩

/-- POST `/api/transactions/[id]/meetup` (src/app/api/transactions/[id]/meetup/route.ts). -/
def setMeetupPOST (userId : Option String) (validBody : Bool) (location : String)
    (db : Option TxContext) : RouteOut :=
  match userId with
  | none => ⟨.error ⟨401, "Unauthorized"⟩, db⟩
  | some uid =>
    if ¬ validBody then ⟨.error ⟨400, "Validation failed"⟩, db⟩
    else match db with
    | none => ⟨.error ⟨404, "Transaction not found"⟩, db⟩
    | some ctx =>
      if ctx.txn.buyerId ≠ uid ∧ ctx.txn.sellerId ≠ uid then
        ⟨.error ⟨403, "You are not part of this transaction"⟩, db⟩
      else if ctx.txn.status ≠ .REQUESTED ∧ ctx.txn.status ≠ .ACCEPTED then
        ⟨.error ⟨400, "Cannot set meetup location for transaction in " ++ ctx.txn.status.name ++ " status"⟩, db⟩
      else
        let ctx2 := { ctx with txn := { ctx.txn with
          meetupLocation := some location
          status := .MEETING } }
        ⟨.ok (), some ctx2⟩

/-- POST `/api/transactions/[id]/confirm-delivery` (src/unnamed/part_002).
From PAID the update writes `status: MEETING`; from MEETING the update's
`data` object is empty, so the row is unchanged. -/
def confirmDeliveryPOST (userId : Option String) (validBody : Bool)
    (db : Option TxContext) : RouteOut :=
  match userId with
  | none => ⟨.error ⟨401, "Unauthorized"⟩, db⟩
  | some uid =>
    if ¬ validBody then ⟨.error ⟨400, "Validation failed"⟩, db⟩
    else match db with
    | none => ⟨.error ⟨404, "Transaction not found"⟩, db⟩
    | some ctx =>
      if ctx.txn.sellerId ≠ uid then
        ⟨.error ⟨403, "Only the seller can confirm delivery"⟩, db⟩
      else if ctx.txn.status ≠ .PAID ∧ ctx.txn.status ≠ .MEETING then
        ⟨.error ⟨400, "Cannot confirm delivery for transaction in " ++ ctx.txn.status.name ++ " status. Must be PAID or MEETING."⟩, db⟩
      else
        let ctx2 := if ctx.txn.status = .PAID
          then { ctx with txn := { ctx.txn with status := .MEETING } }
          else ctx
        ⟨.ok (), some ctx2⟩

/-- POST `/api/transactions/[id]/mark-paid` (src/app/api/transactions/[id]/mark-paid/route.ts). -/
def markPaidPOST (userId : Option String) (validBody : Bool)
    (db : Option TxContext) : RouteOut :=
  match userId with
  | none => ⟨.error ⟨401, "Unauthorized"⟩, db⟩
  | some uid =>
    if ¬ validBody then ⟨.error ⟨400, "Validation failed"⟩, db⟩
    else match db with
    | none => ⟨.error ⟨404, "Transaction not found"⟩, db⟩
    | some ctx =>
      if ctx.txn.buyerId ≠ uid then
        ⟨.error ⟨403, "Only the buyer can mark payment as done"⟩, db⟩
      else if ctx.txn.status ≠ .MEETING then
        ⟨.error ⟨400, "Cannot mark payment for transaction in " ++ ctx.txn.status.name ++ " status. Must be MEETING."⟩, db⟩
      else
        let ctx2 := { ctx with txn := { ctx.txn with
          status := .PAID
          paymentId := some "physical_payment" } }
        ⟨.ok (), some ctx2⟩

/-- The store states visible at the four commit points of the mark-received
cascade, in program order, starting with the pre-cascade state.  Each list
element is the row set after one more awaited Prisma write has committed
(lines 71-120 of the route): transaction update, item update, seller
update, buyer update.  There is no `prisma.$transaction` wrapper in the
source, so each write commits on its own. -/
def markReceivedStates (calculateTrustScore : TrustInput → Int)
    (getEarnedBadges : BadgeInput → List String) (ctx : TxContext) : List TxContext :=
  let s1 := { ctx with txn := { ctx.txn with status := .COMPLETED } }
  let s2 := { s1 with item := { s1.item with availabilityStatus := "SOLD" } }
  let seller := ctx.seller
  let newCompletedDeals := seller.completedDeals + 1
  let newCancellationRate :=
    seller.cancellationRate * (seller.completedDeals : ℚ) / (newCompletedDeals : ℚ)
  let newTrustScore := calculateTrustScore
    ⟨seller.verificationStatus, seller.avgRating, newCompletedDeals, newCancellationRate⟩
  let newBadges := getEarnedBadges
    ⟨newCompletedDeals, seller.avgRating, newCancellationRate⟩
  let s3 := { s2 with seller := { seller with
    completedDeals := newCompletedDeals
    cancellationRate := newCancellationRate
    trustScore := newTrustScore
    badges := newBadges } }
  let s4 := { s3 with buyer := { ctx.buyer with
    completedDeals := ctx.buyer.completedDeals + 1 } }
  [ctx, s1, s2, s3, s4]

/-- The store after the whole cascade has run. -/
def markReceivedCascade (calculateTrustScore : TrustInput → Int)
    (getEarnedBadges : BadgeInput → List String) (ctx : TxContext) : TxContext :=
  (markReceivedStates calculateTrustScore getEarnedBadges ctx).getLastD ctx

/-- POST `/api/transactions/[id]/mark-received`
(src/app/api/transactions/[id]/mark-received/route.ts). -/
def markReceivedPOST (calculateTrustScore : TrustInput → Int)
    (getEarnedBadges : BadgeInput → List String)
    (userId : Option String) (validBody : Bool) (db : Option TxContext) : RouteOut :=
  match userId with
  | none => ⟨.error ⟨401, "Unauthorized"⟩, db⟩
  | some uid =>
    if ¬ validBody then ⟨.error ⟨400, "Validation failed"⟩, db⟩
    else match db with
    | none => ⟨.error ⟨404, "Transaction not found"⟩, db⟩
    | some ctx =>
      if ctx.txn.buyerId ≠ uid then
        ⟨.error ⟨403, "Only the buyer can mark item as received"⟩, db⟩
      else if ctx.txn.status ≠ .PAID then
        ⟨.error ⟨400, "Cannot mark item as received for transaction in " ++ ctx.txn.status.name ++ " status. Must be PAID."⟩, db⟩
      else
        ⟨.ok (), some (markReceivedCascade calculateTrustScore getEarnedBadges ctx)⟩

/-! State-machine operations, uniformly, for the invalid-state claim. -/

/-- The five mutating state-machine operations exposed by the routes. -/
inductive Op where
  | pay
  | setMeetup
  | confirmDelivery
  | markPaid
  | markReceived
deriving DecidableEq, Repr

/-- The status precondition each route checks before writing, read off the
guard in each handler. -/
def opPrecond : Op → TxStatus → Bool
  | .pay, .ACCEPTED => true
  | .pay, _ => false
  | .setMeetup, .REQUESTED => true
  | .setMeetup, .ACCEPTED => true
  | .setMeetup, _ => false
  | .confirmDelivery, .PAID => true
  | .confirmDelivery, .MEETING => true
  | .confirmDelivery, _ => false
  | .markPaid, .MEETING => true
  | .markPaid, _ => false
  | .markReceived, .PAID => true
  | .markReceived, _ => false

/-- The caller is the role the operation's route admits. -/
def opRoleOk : Op → TxContext → String → Prop
  | .pay, ctx, uid => ctx.txn.buyerId = uid
  | .setMeetup, ctx, uid => ctx.txn.buyerId = uid ∨ ctx.txn.sellerId = uid
  | .confirmDelivery, ctx, uid => ctx.txn.sellerId = uid
  | .markPaid, ctx, uid => ctx.txn.buyerId = uid
  | .markReceived, ctx, uid => ctx.txn.buyerId = uid

/-- Run one operation as an authenticated caller with a well-formed payload
against an existing transaction row set. -/
def opRun (op : Op) (uid : String) (ctx : TxContext) : RouteOut :=
  match op with
  | .pay => payPOST (some uid) true "pay_1" (some ctx) 0 0
  | .setMeetup => setMeetupPOST (some uid) true "Library" (some ctx)
  | .confirmDelivery => confirmDeliveryPOST (some uid) true (some ctx)
  | .markPaid => markPaidPOST (some uid) true (some ctx)
  | .markReceived => markReceivedPOST (fun _ => 0) (fun _ => []) (some uid) true (some ctx)

/-! The notification poller (src/lib/services/message-notifier.ts) and the
messages/new endpoint it calls. -/

/-- Message row as returned by the messages/new endpoint. -/
structure Msg where
  id : String
  senderId : String
  content : String
  createdAt : Int
deriving DecidableEq, Repr

/-- The projection of a transaction the poller uses (id, parties, item name). -/
structure TxInfo where
  id : String
  itemName : String
  buyerId : String
  buyerName : String
  sellerId : String
  sellerName : String
deriving DecidableEq, Repr

/-- The toast the poller shows (`showToast` call site, title/message/actionUrl). -/
structure Toast where
  title : String
  message : String
  actionUrl : String
deriving DecidableEq, Repr

/-- Mutable fields of `MessageNotifier` read or written by one tick:
`lastCheckTime`, `lastMessageTimestamps` (an association list with the most
recent binding first, as a model of the `Map`), and `activeTransactionIds`. -/
structure NotifierState where
  lastCheckTime : Int
  lastSeen : List (String × Int)
  active : List String
deriving DecidableEq, Repr

/-- Ascending `createdAt` order used by the endpoint's `orderBy`. -/
def timeLE (a b : Msg) : Prop := a.createdAt ≤ b.createdAt

instance : DecidableRel timeLE := fun a b =>
  inferInstanceAs (Decidable (a.createdAt ≤ b.createdAt))

instance : IsTotal Msg timeLE := ⟨fun a b => Int.le_total a.createdAt b.createdAt⟩

instance : IsTrans Msg timeLE := ⟨fun _ _ _ hab hbc => le_trans hab hbc⟩

/-- The `where` filter of GET messages/new: with an `after` timestamp the
route keeps messages with `createdAt > after - 500` (500 ms buffer, line
58); with no `after` it keeps everything. -/
def newMessagesFilter (afterTs : Option Int) (allMsgs : List Msg) : List Msg :=
  match afterTs with
  | some t => allMsgs.filter (fun m => decide (t - 500 < m.createdAt))
  | none => allMsgs

/-- The message list GET messages/new returns once its guards have passed:
the filtered store ordered ascending by `createdAt`, capped at 50
(`take: 50`). -/
def fetchNewMessages (afterTs : Option Int) (allMsgs : List Msg) : List Msg :=
  (List.insertionSort timeLE (newMessagesFilter afterTs allMsgs)).take 50

/-- GET `/api/transactions/[id]/messages/new`
(src/app/api/transactions/[id]/messages/new/route.ts).  `db` carries the
`buyerId`/`sellerId` projection `findUnique` selects; `allMsgs` is the
transaction's message store. -/
def messagesNewGET (userId : Option String) (db : Option (String × String))
    (afterTs : Option Int) (allMsgs : List Msg) : Except ErrResp (List Msg) :=
  match userId with
  | none => .error ⟨401, "Unauthorized"⟩
  | some uid =>
    match db with
    | none => .error ⟨404, "Transaction not found"⟩
    | some ids =>
      if ids.1 ≠ uid ∧ ids.2 ≠ uid then
        .error ⟨403, "You are not part of this transaction"⟩
      else
        .ok (fetchNewMessages afterTs allMsgs)

/-- The watermark the poller sends as `after` for one transaction:
`lastMessageTimestamps.get(id) || lastCheckTime` (line 110, a fallback,
not a maximum). -/
def lastKnownTime (st : NotifierState) (txId : String) : Int :=
  (st.lastSeen.lookup txId).getD st.lastCheckTime

/-- What the poller's per-transaction fetch returns: the messages/new body
for `after = lastKnownTime`. -/
def fetchedFor (st : NotifierState) (txId : String) (allMsgs : List Msg) : List Msg :=
  fetchNewMessages (some (lastKnownTime st txId)) allMsgs

/-- The fetched messages not authored by the current user (line 129's
filter); ascending, so its head is the earliest unseen counterpart
message. -/
def unseenFrom (currentUserId : String) (st : NotifierState) (txId : String)
    (allMsgs : List Msg) : List Msg :=
  (fetchedFor st txId allMsgs).filter (fun m => decide (m.senderId ≠ currentUserId))

/-- Fallback element for `getLastD` on lists proved nonempty. -/
def noMsg : Msg := ⟨"", "", "", 0⟩

/-- The toast built at lines 144-152 for the earliest unseen counterpart
message `first`. -/
def toastFor (tx : TxInfo) (first : Msg) : Toast :=
  { title := "New message from " ++
      (if tx.buyerId = first.senderId then tx.buyerName else tx.sellerName)
    message := first.content.take 50 ++
      (if 50 < first.content.length then "..." else "")
    actionUrl := "/chat/" ++ tx.id }

/-- One iteration of the `for (const transaction of transactions)` loop in
`checkForNewMessages` (lines 105-157): skip suppressed transactions, fetch
with the per-transaction watermark, filter out own messages, emit at most
one toast, and update `lastMessageTimestamps`. -/
def checkTransactionStep (currentUserId : String) (st : NotifierState)
    (tx : TxInfo) (allMsgs : List Msg) : Option Toast × NotifierState :=
  if tx.id ∈ st.active then (none, st)
  else
    let messages := fetchedFor st tx.id allMsgs
    let newMessages := unseenFrom currentUserId st tx.id allMsgs
    match newMessages with
    | [] =>
      match messages.getLast? with
      | some latest => (none, { st with lastSeen := (tx.id, latest.createdAt) :: st.lastSeen })
      | none => (none, st)
    | first :: rest =>
      let latest := (first :: rest).getLastD noMsg
      (some (toastFor tx first),
       { st with lastSeen := (tx.id, latest.createdAt) :: st.lastSeen })

/-- Fold step of the tick: run one loop iteration and append its toast, if
any, tagged with the transaction it was emitted for. -/
def tickStep (currentUserId : String) (msgsFor : String → List Msg)
    (acc : List (String × Toast) × NotifierState) (tx : TxInfo) :
    List (String × Toast) × NotifierState :=
  let out := checkTransactionStep currentUserId acc.2 tx (msgsFor tx.id)
  (match out.1 with
   | some t => acc.1 ++ [(tx.id, t)]
   | none => acc.1, out.2)

/-- One full poller tick over the caller's transaction list (the loop body
above folded over the list, then `lastCheckTime = new Date()` at line 161).
Notifications are returned tagged with the transaction id they were emitted
for. -/
def checkForNewMessages (currentUserId : String) (txs : List TxInfo)
    (msgsFor : String → List Msg) (now : Int) (st : NotifierState) :
    List (String × Toast) × NotifierState :=
  let folded := txs.foldl (tickStep currentUserId msgsFor) ([], st)
  (folded.1, { folded.2 with lastCheckTime := now })

/-- The fetch window the specification describes, written from the spec's
words for refinement comparison with `fetchedFor`: messages with
`createdAt` strictly greater than
`max(lastSeen[transactionId], lastCheckTime) - 500ms`. -/
def specWatermark (st : NotifierState) (txId : String) : Int :=
  max ((st.lastSeen.lookup txId).getD st.lastCheckTime) st.lastCheckTime

/-- Spec-side fetched set (see `specWatermark`). -/
def specFetchWindow (st : NotifierState) (txId : String) (allMsgs : List Msg) : List Msg :=
  allMsgs.filter (fun m => decide (specWatermark st txId - 500 < m.createdAt))

/-! Concrete fixtures used by counterexamples and witnesses. -/

/-- A buyer row. -/
def buyerA : User :=
  ⟨"u_buyer", "Alice", "VERIFIED", 4, 3, 1/10, 50, ["FAST_RESPONDER"]⟩

/-- A seller row. -/
def sellerB : User :=
  ⟨"u_seller", "Bob", "VERIFIED", 9/2, 4, 1/5, 60, []⟩

/-- An available item owned by the seller. -/
def itemI : Item := ⟨"item1", "AVAILABLE"⟩

/-- A transaction in PAID status between the fixtures above. -/
def txnPaid : Transaction :=
  ⟨"t1", "u_buyer", "u_seller", "item1", .PAID, some "pay_1", none, some 0,
    some MEETUP_TIMEOUT_MS⟩

/-- Loaded row set for `txnPaid`. -/
def ctxPaid : TxContext := ⟨txnPaid, itemI, sellerB, buyerA⟩

/-- The same transaction still in REQUESTED status. -/
def ctxRequested : TxContext :=
  ⟨{ txnPaid with
      status := .REQUESTED
      paymentId := none
      countdownStart := none
      countdownEnd := none }, itemI, sellerB, buyerA⟩

/-- The same transaction in ACCEPTED status, before payment. -/
def ctxAccepted : TxContext :=
  ⟨{ txnPaid with
      status := .ACCEPTED
      paymentId := none
      countdownStart := none
      countdownEnd := none }, itemI, sellerB, buyerA⟩

/-- Poller projection of the fixture transaction. -/
def txA : TxInfo := ⟨"T1", "Calculus Book", "u_buyer", "Alice", "u_seller", "Bob"⟩

/-- Fresh poller state: watermark at epoch, nothing seen, nothing suppressed. -/
def st0 : NotifierState := ⟨0, [], []⟩

/-- One counterpart message followed by a newer own-authored message. -/
def msgsMixed : List Msg :=
  [⟨"m1", "u_seller", "hello there", 1000⟩, ⟨"m2", "u_buyer", "on my way", 2000⟩]

/-- A single counterpart message at time 5000. -/
def msgsOne : List Msg := [⟨"m1", "u_seller", "hi", 5000⟩]

/-- State whose per-transaction watermark (2000) lags the global watermark
(10000). -/
def stLag : NotifierState := ⟨10000, [("T1", 2000)], []⟩

/-- State that has already recorded the fixture message's timestamp as seen. -/
def stSeen : NotifierState := ⟨10000, [("T1", 5000)], []⟩

/-- State in which the fixture transaction's chat is open (suppressed). -/
def stSupp : NotifierState := ⟨0, [], ["T1"]⟩

/-! Theorems on the claims. -/

/-- Anything the endpoint returns comes from the message store. -/
theorem mem_of_mem_fetchNewMessages {m : Msg} {afterTs : Option Int} {l : List Msg}
    (h : m ∈ fetchNewMessages afterTs l) : m ∈ l := by
  have h1 : m ∈ List.insertionSort timeLE (newMessagesFilter afterTs l) :=
    List.take_subset _ _ h
  have h2 : m ∈ newMessagesFilter afterTs l :=
    (List.perm_insertionSort timeLE _).mem_iff.mp h1
  cases afterTs with
  | none => exact h2
  | some t => exact List.mem_of_mem_filter h2

/-- With at most 50 messages past the watermark, the endpoint's answer is
exactly the store filtered by `createdAt > watermark - 500`. -/
theorem mem_fetchedFor_iff (st : NotifierState) (txId : String) (allMsgs : List Msg)
    (hlen : (newMessagesFilter (some (lastKnownTime st txId)) allMsgs).length ≤ 50)
    (m : Msg) :
    m ∈ fetchedFor st txId allMsgs ↔
      m ∈ allMsgs ∧ lastKnownTime st txId - 500 < m.createdAt := by
  unfold fetchedFor fetchNewMessages
  have hperm := List.perm_insertionSort timeLE
    (newMessagesFilter (some (lastKnownTime st txId)) allMsgs)
  have hlen2 : (List.insertionSort timeLE
      (newMessagesFilter (some (lastKnownTime st txId)) allMsgs)).length ≤ 50 := by
    rw [hperm.length_eq]; exact hlen
  rw [List.take_of_length_le hlen2, hperm.mem_iff]
  unfold newMessagesFilter
  simp [List.mem_filter]

/-- A tick loop iteration never changes the suppression set. -/
theorem step_active_invariant (u : String) (st : NotifierState) (tx : TxInfo)
    (ms : List Msg) :
    (checkTransactionStep u st tx ms).2.active = st.active := by
  unfold checkTransactionStep
  by_cases h : tx.id ∈ st.active
  · simp [h]
  · simp only [if_neg h]
    cases hu : unseenFrom u st tx.id ms with
    | nil =>
      cases hg : (fetchedFor st tx.id ms).getLast? with
      | none => simp [hu, hg]
      | some latest => simp [hu, hg]
    | cons a l => simp [hu]

/-- A suppressed transaction is skipped before any fetch. -/
theorem step_none_of_active (u : String) (st : NotifierState) (tx : TxInfo)
    (ms : List Msg) (h : tx.id ∈ st.active) :
    checkTransactionStep u st tx ms = (none, st) := by
  simp [checkTransactionStep, h]

/-- Fold invariant behind the suppression claim: a transaction id that is
suppressed at tick start never gains a notification during the fold. -/
theorem tick_acc_suppressed (u : String) (msgsFor : String → List Msg) (txId : String)
    (txs : List TxInfo) :
    ∀ (acc : List (String × Toast)) (st : NotifierState),
      txId ∈ st.active → (∀ t : Toast, (txId, t) ∉ acc) →
      ∀ t : Toast, (txId, t) ∉ (txs.foldl (tickStep u msgsFor) (acc, st)).1 := by
  induction txs with
  | nil =>
    intro acc st hact hacc t
    simpa using hacc t
  | cons tx rest ih =>
    intro acc st hact hacc t
    rw [List.foldl_cons]
    by_cases hin : tx.id ∈ st.active
    · have hstep : tickStep u msgsFor (acc, st) tx = (acc, st) := by
        simp [tickStep, step_none_of_active u st tx (msgsFor tx.id) hin]
      rw [hstep]
      exact ih acc st hact hacc t
    · have hact2 : txId ∈ (checkTransactionStep u st tx (msgsFor tx.id)).2.active := by
        rw [step_active_invariant]; exact hact
      have hid : tx.id ≠ txId := fun he => hin (he ▸ hact)
      rcases ho : (checkTransactionStep u st tx (msgsFor tx.id)).1 with _ | t0
      · have hstep : tickStep u msgsFor (acc, st) tx =
            (acc, (checkTransactionStep u st tx (msgsFor tx.id)).2) := by
          simp [tickStep, ho]
        rw [hstep]
        exact ih acc _ hact2 hacc t
      · have hstep : tickStep u msgsFor (acc, st) tx =
            (acc ++ [(tx.id, t0)], (checkTransactionStep u st tx (msgsFor tx.id)).2) := by
          simp [tickStep, ho]
        rw [hstep]
        refine ih _ _ hact2 ?_ t
        intro t2 hm
        rcases List.mem_append.mp hm with hm1 | hm2
        · exact hacc t2 hm1
        · have hpair := List.mem_singleton.mp hm2
          exact hid ((Prod.mk.injEq _ _ _ _).mp hpair).1.symm

/-- Claim C9: a transaction in the suppression set when the tick processes
it receives no notification in that tick, whatever messages exist. -/
theorem suppressed_never_notified (u : String) (txs : List TxInfo)
    (msgsFor : String → List Msg) (now : Int) (st : NotifierState) (txId : String)
    (hact : txId ∈ st.active) :
    ∀ t : Toast, (txId, t) ∉ (checkForNewMessages u txs msgsFor now st).1 := by
  intro t
  have h := tick_acc_suppressed u msgsFor txId txs [] st hact (by simp) t
  simpa [checkForNewMessages] using h

/-- Closed witness for `suppressed_never_notified`: with the fixture chat
open and a fresh counterpart message waiting, the tick emits nothing for
that transaction. -/
theorem suppressed_never_notified_witness :
    ("T1", toastFor txA ⟨"m1", "u_seller", "hi", 5000⟩) ∉
      (checkForNewMessages "u_buyer" [txA] (fun _ => msgsOne) 99999 stSupp).1 :=
  suppressed_never_notified "u_buyer" [txA] (fun _ => msgsOne) 99999 stSupp "T1"
    (by decide) (toastFor txA ⟨"m1", "u_seller", "hi", 5000⟩)

/-- Claim C6 counterexample: with one counterpart message at time 1000 and
a newer own-authored message at time 2000 both fetched, the loop stores
1000 (the newest counterpart message), not 2000 (the newest fetched
message), as the transaction's watermark. -/
theorem lastSeen_newest_counterexample :
    (fetchedFor st0 "T1" msgsMixed).getLastD noMsg =
      ⟨"m2", "u_buyer", "on my way", 2000⟩ ∧
    fetchedFor st0 "T1" msgsMixed ≠ [] ∧
    "T1" ∉ st0.active ∧
    (checkTransactionStep "u_buyer" st0 txA msgsMixed).2.lastSeen.lookup "T1" =
      some 1000 ∧
    (1000 : Int) ≠ 2000 :=
  ⟨rfl, by decide, by decide, rfl, by decide⟩

/-- Claim C6 as amended: when messages were fetched for a non-suppressed
transaction, the watermark is set to the newest fetched counterpart
message's timestamp when any counterpart message was fetched, and only
otherwise to the newest fetched message's timestamp. -/
theorem lastSeen_update_amended (u : String) (st : NotifierState) (tx : TxInfo)
    (allMsgs : List Msg) (hact : tx.id ∉ st.active) :
    (unseenFrom u st tx.id allMsgs ≠ [] →
      (checkTransactionStep u st tx allMsgs).2.lastSeen.lookup tx.id =
        some ((unseenFrom u st tx.id allMsgs).getLastD noMsg).createdAt) ∧
    (unseenFrom u st tx.id allMsgs = [] → fetchedFor st tx.id allMsgs ≠ [] →
      (checkTransactionStep u st tx allMsgs).2.lastSeen.lookup tx.id =
        some ((fetchedFor st tx.id allMsgs).getLastD noMsg).createdAt) := by
  constructor
  · intro hne
    rcases hu : unseenFrom u st tx.id allMsgs with _ | ⟨first, rest⟩
    · exact absurd hu hne
    · simp [checkTransactionStep, hact, hu, List.lookup]
  · intro hu hne
    rcases hg : (fetchedFor st tx.id allMsgs).getLast? with _ | latest
    · exact absurd (List.getLast?_eq_none_iff.mp hg) hne
    · simp [checkTransactionStep, hact, hu, hg, List.lookup,
        List.getLastD_eq_getLast?, hg]

/-- Closed witness for `lastSeen_update_amended` on the mixed fixture. -/
theorem lastSeen_update_amended_witness :
    (checkTransactionStep "u_buyer" st0 txA msgsMixed).2.lastSeen.lookup "T1" =
      some ((unseenFrom "u_buyer" st0 "T1" msgsMixed).getLastD noMsg).createdAt :=
  (lastSeen_update_amended "u_buyer" st0 txA msgsMixed (by decide)).1 (by decide)

/-- Claim C1: the mark-received cascade is written as four separate awaited
Prisma writes with no `$transaction` wrapper, so it is not atomic: right
after the first commit point the store shows the transaction COMPLETED
while the item is still AVAILABLE, and a failure of any later write leaves
that prefix committed with no rollback.  This theorem exhibits the
intermediate state for a concrete PAID transaction. -/
theorem markReceived_cascade_intermediate_state :
    ∃ s, (markReceivedStates (fun _ => 0) (fun _ => []) ctxPaid).get? 1 = some s ∧
      s.txn.status = TxStatus.COMPLETED ∧ s.item.availabilityStatus = "AVAILABLE" :=
  ⟨_, rfl, rfl, rfl⟩

/-- Claim C2: when the buyer calls mark-received on a PAID transaction, the
transaction becomes COMPLETED, the item SOLD, both parties' completedDeals
grow by exactly one, the seller's cancellationRate is decayed by the factor
oldDeals/(oldDeals+1), and the seller's trustScore and badges are the trust
engine applied to the post-increment statistics. -/
theorem markReceived_success_effects (scoreFn : TrustInput → Int)
    (badgeFn : BadgeInput → List String) (uid : String) (ctx : TxContext)
    (hbuyer : ctx.txn.buyerId = uid) (hstatus : ctx.txn.status = TxStatus.PAID) :
    ∃ ctx2,
      (markReceivedPOST scoreFn badgeFn (some uid) true (some ctx)).resp = .ok () ∧
      (markReceivedPOST scoreFn badgeFn (some uid) true (some ctx)).store = some ctx2 ∧
      ctx2.txn.status = TxStatus.COMPLETED ∧
      ctx2.item.availabilityStatus = "SOLD" ∧
      ctx2.buyer.completedDeals = ctx.buyer.completedDeals + 1 ∧
      ctx2.seller.completedDeals = ctx.seller.completedDeals + 1 ∧
      ctx2.seller.cancellationRate =
        ctx.seller.cancellationRate * (ctx.seller.completedDeals : ℚ) /
          ((ctx.seller.completedDeals : ℚ) + 1) ∧
      ctx2.seller.trustScore = scoreFn ⟨ctx.seller.verificationStatus,
        ctx.seller.avgRating, ctx.seller.completedDeals + 1,
        ctx.seller.cancellationRate * (ctx.seller.completedDeals : ℚ) /
          ((ctx.seller.completedDeals : ℚ) + 1)⟩ ∧
      ctx2.seller.badges = badgeFn ⟨ctx.seller.completedDeals + 1,
        ctx.seller.avgRating,
        ctx.seller.cancellationRate * (ctx.seller.completedDeals : ℚ) /
          ((ctx.seller.completedDeals : ℚ) + 1)⟩ := by
  refine ⟨markReceivedCascade scoreFn badgeFn ctx, ?_, ?_, ?_, ?_, ?_, ?_, ?_, ?_, ?_⟩ <;>
    simp [markReceivedPOST, markReceivedCascade, markReceivedStates, hbuyer, hstatus]

/-- Closed witness for `markReceived_success_effects` at the concrete PAID
fixture with a concrete trust engine. -/
theorem markReceived_success_effects_witness :
    ∃ ctx2,
      (markReceivedPOST (fun _ => 77) (fun _ => ["TRUSTED_SELLER"])
        (some "u_buyer") true (some ctxPaid)).resp = .ok () ∧
      (markReceivedPOST (fun _ => 77) (fun _ => ["TRUSTED_SELLER"])
        (some "u_buyer") true (some ctxPaid)).store = some ctx2 ∧
      ctx2.txn.status = TxStatus.COMPLETED ∧
      ctx2.item.availabilityStatus = "SOLD" ∧
      ctx2.buyer.completedDeals = ctxPaid.buyer.completedDeals + 1 ∧
      ctx2.seller.completedDeals = ctxPaid.seller.completedDeals + 1 ∧
      ctx2.seller.cancellationRate =
        ctxPaid.seller.cancellationRate * (ctxPaid.seller.completedDeals : ℚ) /
          ((ctxPaid.seller.completedDeals : ℚ) + 1) ∧
      ctx2.seller.trustScore = (fun _ => (77 : Int)) (⟨ctxPaid.seller.verificationStatus,
        ctxPaid.seller.avgRating, ctxPaid.seller.completedDeals + 1,
        ctxPaid.seller.cancellationRate * (ctxPaid.seller.completedDeals : ℚ) /
          ((ctxPaid.seller.completedDeals : ℚ) + 1)⟩ : TrustInput) ∧
      ctx2.seller.badges = (fun _ => ["TRUSTED_SELLER"]) (⟨ctxPaid.seller.completedDeals + 1,
        ctxPaid.seller.avgRating,
        ctxPaid.seller.cancellationRate * (ctxPaid.seller.completedDeals : ℚ) /
          ((ctxPaid.seller.completedDeals : ℚ) + 1)⟩ : BadgeInput) :=
  markReceived_success_effects (fun _ => 77) (fun _ => ["TRUSTED_SELLER"])
    "u_buyer" ctxPaid rfl rfl

/-- Claim C3: every state-machine route, invoked by a caller with the
correct role while the transaction status fails the route's precondition,
answers 400 with a message that names the current status, and the store is
unchanged. -/
theorem invalidState_rejected_unchanged (op : Op) (uid : String) (ctx : TxContext)
    (hrole : opRoleOk op ctx uid) (hpre : opPrecond op ctx.txn.status = false) :
    ∃ pre post,
      (opRun op uid ctx).resp = .error ⟨400, pre ++ ctx.txn.status.name ++ post⟩ ∧
      (opRun op uid ctx).store = some ctx := by
  cases op
  case pay =>
    have hb : ctx.txn.buyerId = uid := hrole
    have hs : ctx.txn.status ≠ .ACCEPTED := by
      intro he; rw [he] at hpre; exact absurd hpre (by simp [opPrecond])
    exact ⟨"Cannot pay for transaction in ", " status",
      by simp [opRun, payPOST, hb, hs], by simp [opRun, payPOST, hb, hs]⟩
  case setMeetup =>
    have hg : ¬(ctx.txn.buyerId ≠ uid ∧ ctx.txn.sellerId ≠ uid) := by
      rcases hrole with h | h <;> simp [h]
    have hs : ctx.txn.status ≠ .REQUESTED ∧ ctx.txn.status ≠ .ACCEPTED := by
      constructor <;> (intro he; rw [he] at hpre; exact absurd hpre (by simp [opPrecond]))
    exact ⟨"Cannot set meetup location for transaction in ", " status",
      by simp [opRun, setMeetupPOST, hg, hs], by simp [opRun, setMeetupPOST, hg, hs]⟩
  case confirmDelivery =>
    have hb : ctx.txn.sellerId = uid := hrole
    have hs : ctx.txn.status ≠ .PAID ∧ ctx.txn.status ≠ .MEETING := by
      constructor <;> (intro he; rw [he] at hpre; exact absurd hpre (by simp [opPrecond]))
    exact ⟨"Cannot confirm delivery for transaction in ", " status. Must be PAID or MEETING.",
      by simp [opRun, confirmDeliveryPOST, hb, hs], by simp [opRun, confirmDeliveryPOST, hb, hs]⟩
  case markPaid =>
    have hb : ctx.txn.buyerId = uid := hrole
    have hs : ctx.txn.status ≠ .MEETING := by
      intro he; rw [he] at hpre; exact absurd hpre (by simp [opPrecond])
    exact ⟨"Cannot mark payment for transaction in ", " status. Must be MEETING.",
      by simp [opRun, markPaidPOST, hb, hs], by simp [opRun, markPaidPOST, hb, hs]⟩
  case markReceived =>
    have hb : ctx.txn.buyerId = uid := hrole
    have hs : ctx.txn.status ≠ .PAID := by
      intro he; rw [he] at hpre; exact absurd hpre (by simp [opPrecond])
    exact ⟨"Cannot mark item as received for transaction in ", " status. Must be PAID.",
      by simp [opRun, markReceivedPOST, hb, hs], by simp [opRun, markReceivedPOST, hb, hs]⟩

/-- Closed witness for `invalidState_rejected_unchanged`: the buyer calls
pay on a REQUESTED transaction and is rejected with 400 naming REQUESTED,
the store untouched. -/
theorem invalidState_rejected_unchanged_witness :
    ∃ pre post,
      (opRun .pay "u_buyer" ctxRequested).resp =
        .error ⟨400, pre ++ ctxRequested.txn.status.name ++ post⟩ ∧
      (opRun .pay "u_buyer" ctxRequested).store = some ctxRequested :=
  invalidState_rejected_unchanged .pay "u_buyer" ctxRequested rfl rfl

/-- Claim C4 counterexample: the pay handler reads the clock twice
(`new Date()` for countdownStart, then `Date.now()` for countdownEnd), so a
successful pay whose two clock readings differ by 1 ms stores a countdown
window of 24 hours plus 1 ms, refuting `countdownEnd - countdownStart ==
24h` exactly. -/
theorem pay_countdown_counterexample :
    ∃ ctx2 s e,
      (payPOST (some "u_buyer") true "pay_1" (some ctxAccepted) 1000 1001).resp = .ok () ∧
      (payPOST (some "u_buyer") true "pay_1" (some ctxAccepted) 1000 1001).store = some ctx2 ∧
      ctx2.txn.countdownStart = some s ∧
      ctx2.txn.countdownEnd = some e ∧
      e - s ≠ MEETUP_TIMEOUT_MS :=
  ⟨_, 1000, 1001 + MEETUP_TIMEOUT_MS, rfl, rfl, rfl, rfl, by decide⟩

/-- Claim C4 as amended: pay succeeds exactly when the transaction is
ACCEPTED and the caller is the buyer (given an authenticated caller, a
valid body and an existing row); it stores the supplied paymentId, sets
countdownStart to the first clock reading and countdownEnd to the second
reading plus 24 hours, so the stored window is 24 hours plus the elapsed
time between the two readings — exactly 24 hours precisely when the
readings coincide. -/
theorem pay_success_amended (uid pid : String) (ctx : TxContext) (now1 now2 : Int) :
    ((payPOST (some uid) true pid (some ctx) now1 now2).resp = .ok () ↔
      ctx.txn.status = TxStatus.ACCEPTED ∧ ctx.txn.buyerId = uid) ∧
    (ctx.txn.status = TxStatus.ACCEPTED → ctx.txn.buyerId = uid →
      ∃ ctx2,
        (payPOST (some uid) true pid (some ctx) now1 now2).store = some ctx2 ∧
        ctx2.txn.status = TxStatus.PAID ∧
        ctx2.txn.paymentId = some pid ∧
        ctx2.txn.countdownStart = some now1 ∧
        ctx2.txn.countdownEnd = some (now2 + MEETUP_TIMEOUT_MS) ∧
        (now2 + MEETUP_TIMEOUT_MS) - now1 = MEETUP_TIMEOUT_MS + (now2 - now1) ∧
        ((now2 + MEETUP_TIMEOUT_MS) - now1 = MEETUP_TIMEOUT_MS ↔ now2 = now1)) := by
  constructor
  · constructor
    · intro h
      by_cases hb : ctx.txn.buyerId = uid
      · by_cases hs : ctx.txn.status = TxStatus.ACCEPTED
        · exact ⟨hs, hb⟩
        · simp [payPOST, hb, hs] at h
      · simp [payPOST, hb] at h
    · rintro ⟨hs, hb⟩
      simp [payPOST, hb, hs]
  · intro hs hb
    refine ⟨{ ctx with txn := { ctx.txn with
        status := .PAID
        paymentId := some pid
        countdownStart := some now1
        countdownEnd := some (now2 + MEETUP_TIMEOUT_MS) } },
      ?_, rfl, rfl, rfl, rfl, by omega, by omega⟩
    simp [payPOST, hb, hs]

/-- Closed witness for `pay_success_amended`: with coinciding clock
readings the fixture buyer pays the ACCEPTED fixture transaction and the
stored window is exactly 24 hours. -/
theorem pay_success_amended_witness :
    (payPOST (some "u_buyer") true "pay_1" (some ctxAccepted) 500 500).resp = .ok () ∧
    ∃ ctx2,
      (payPOST (some "u_buyer") true "pay_1" (some ctxAccepted) 500 500).store = some ctx2 ∧
      ctx2.txn.countdownStart = some 500 ∧
      ctx2.txn.countdownEnd = some (500 + MEETUP_TIMEOUT_MS) := by
  have h := pay_success_amended "u_buyer" "pay_1" ctxAccepted 500 500
  obtain ⟨ctx2, hstore, _, _, hcs, hce, _, _⟩ := h.2 rfl rfl
  exact ⟨h.1.mpr ⟨rfl, rfl⟩, ctx2, hstore, hcs, hce⟩

/-- Claim C5: confirm-delivery by the seller moves PAID to MEETING, is a
complete no-op from MEETING (the update's data object is empty), and hence
applying it twice from PAID equals applying it once. -/
theorem confirmDelivery_idempotent (uid : String) (ctx : TxContext)
    (hseller : ctx.txn.sellerId = uid) (hstatus : ctx.txn.status = TxStatus.PAID) :
    ∃ ctx2,
      (confirmDeliveryPOST (some uid) true (some ctx)).resp = .ok () ∧
      (confirmDeliveryPOST (some uid) true (some ctx)).store = some ctx2 ∧
      ctx2 = { ctx with txn := { ctx.txn with status := .MEETING } } ∧
      (confirmDeliveryPOST (some uid) true (some ctx2)).resp = .ok () ∧
      (confirmDeliveryPOST (some uid) true (some ctx2)).store = some ctx2 := by
  refine ⟨{ ctx with txn := { ctx.txn with status := .MEETING } }, ?_, ?_, rfl, ?_, ?_⟩ <;>
    simp [confirmDeliveryPOST, hseller, hstatus]

/-- Closed witness for `confirmDelivery_idempotent` at the PAID fixture. -/
theorem confirmDelivery_idempotent_witness :
    ∃ ctx2,
      (confirmDeliveryPOST (some "u_seller") true (some ctxPaid)).resp = .ok () ∧
      (confirmDeliveryPOST (some "u_seller") true (some ctxPaid)).store = some ctx2 ∧
      ctx2 = { ctxPaid with txn := { ctxPaid.txn with status := .MEETING } } ∧
      (confirmDeliveryPOST (some "u_seller") true (some ctx2)).resp = .ok () ∧
      (confirmDeliveryPOST (some "u_seller") true (some ctx2)).store = some ctx2 :=
  confirmDelivery_idempotent "u_seller" ctxPaid rfl rfl

/-- Claim C7 counterexample: the poller's watermark is
`lastSeen[tx] || lastCheckTime` (a fallback), not
`max(lastSeen[tx], lastCheckTime)` — at `stLag` the code fetches the
message at 5000 although the spec's window excludes it — and there is no
client-side watermark comparison: at `stSeen`, whose per-transaction
watermark already equals the counterpart message's timestamp, the same
message is fetched again (5000 > 5000 - 500) and re-notified. -/
theorem fetch_window_counterexample :
    fetchedFor stLag "T1" msgsOne = msgsOne ∧
    specFetchWindow stLag "T1" msgsOne = [] ∧
    fetchedFor stLag "T1" msgsOne ≠ specFetchWindow stLag "T1" msgsOne ∧
    stSeen.lastSeen.lookup "T1" = some 5000 ∧
    (⟨"m1", "u_seller", "hi", 5000⟩ : Msg) ∈ msgsOne ∧
    (checkTransactionStep "u_buyer" stSeen txA msgsOne).1 =
      some (toastFor txA ⟨"m1", "u_seller", "hi", 5000⟩) :=
  ⟨rfl, rfl, by decide, rfl, by decide, rfl⟩

/-- Claim C7 as amended: for a non-suppressed transaction the fetched set
is exactly the messages with `createdAt` strictly greater than
`(lastSeen[transactionId] when present, otherwise lastCheckTime) - 500ms`
(as long as at most 50 messages qualify), and a duplicate inside that
500 ms window is not tolerated: a counterpart message whose timestamp
equals the stored watermark is fetched again and re-notified. -/
theorem fetch_window_amended (u : String) (st : NotifierState) (tx : TxInfo)
    (allMsgs : List Msg) :
    ((newMessagesFilter (some (lastKnownTime st tx.id)) allMsgs).length ≤ 50 →
      ∀ m : Msg, (m ∈ fetchedFor st tx.id allMsgs ↔
        m ∈ allMsgs ∧ lastKnownTime st tx.id - 500 < m.createdAt)) ∧
    (∀ m : Msg, tx.id ∉ st.active → m ∈ allMsgs → m.senderId ≠ u →
      st.lastSeen.lookup tx.id = some m.createdAt →
      (newMessagesFilter (some (lastKnownTime st tx.id)) allMsgs).length ≤ 50 →
      ∃ t, (checkTransactionStep u st tx allMsgs).1 = some t) := by
  constructor
  · intro hlen m
    exact mem_fetchedFor_iff st tx.id allMsgs hlen m
  · intro m hact hmem hsender hlook hlen
    have hlt : lastKnownTime st tx.id - 500 < m.createdAt := by
      unfold lastKnownTime
      rw [hlook]
      simp only [Option.getD_some]
      omega
    have hmf : m ∈ fetchedFor st tx.id allMsgs :=
      (mem_fetchedFor_iff st tx.id allMsgs hlen m).mpr ⟨hmem, hlt⟩
    have hmu : m ∈ unseenFrom u st tx.id allMsgs := by
      unfold unseenFrom
      exact List.mem_filter.mpr ⟨hmf, by simpa using hsender⟩
    have hne : unseenFrom u st tx.id allMsgs ≠ [] := List.ne_nil_of_mem hmu
    rcases hu : unseenFrom u st tx.id allMsgs with _ | ⟨first, rest⟩
    · exact absurd hu hne
    · exact ⟨toastFor tx first, by simp [checkTransactionStep, hact, hu]⟩

/-- Closed witness for `fetch_window_amended` at the already-seen fixture:
the recorded message is still in the fetch window and a toast fires
again. -/
theorem fetch_window_amended_witness :
    ((⟨"m1", "u_seller", "hi", 5000⟩ : Msg) ∈ fetchedFor stSeen "T1" msgsOne ↔
      (⟨"m1", "u_seller", "hi", 5000⟩ : Msg) ∈ msgsOne ∧
        lastKnownTime stSeen "T1" - 500 < 5000) ∧
    ∃ t, (checkTransactionStep "u_buyer" stSeen txA msgsOne).1 = some t := by
  have h := fetch_window_amended "u_buyer" stSeen txA msgsOne
  exact ⟨h.1 (by decide) ⟨"m1", "u_seller", "hi", 5000⟩,
    h.2 ⟨"m1", "u_seller", "hi", 5000⟩ (by decide) (by decide) (by decide) rfl (by decide)⟩

/-- Claim C8: for a non-suppressed transaction with at least one unseen
counterpart message, the loop iteration emits exactly one toast (the
`Option` result), naming the counterpart of the caller, linking to the
transaction's chat, with a preview of the earliest unseen counterpart
message truncated to 50 characters plus an ellipsis marker exactly when the
content is longer than 50 characters. -/
theorem counterpart_notification (u : String) (st : NotifierState) (tx : TxInfo)
    (allMsgs : List Msg)
    (hact : tx.id ∉ st.active)
    (hdistinct : tx.buyerId ≠ tx.sellerId)
    (hparty : u = tx.buyerId ∨ u = tx.sellerId)
    (hsenders : ∀ m ∈ allMsgs, m.senderId = tx.buyerId ∨ m.senderId = tx.sellerId)
    (hne : unseenFrom u st tx.id allMsgs ≠ []) :
    (checkTransactionStep u st tx allMsgs).1 =
      some (toastFor tx ((unseenFrom u st tx.id allMsgs).headD noMsg)) ∧
    (toastFor tx ((unseenFrom u st tx.id allMsgs).headD noMsg)).title =
      "New message from " ++ (if u = tx.buyerId then tx.sellerName else tx.buyerName) ∧
    (toastFor tx ((unseenFrom u st tx.id allMsgs).headD noMsg)).actionUrl =
      "/chat/" ++ tx.id ∧
    (toastFor tx ((unseenFrom u st tx.id allMsgs).headD noMsg)).message =
      ((unseenFrom u st tx.id allMsgs).headD noMsg).content.take 50 ++
        (if 50 < ((unseenFrom u st tx.id allMsgs).headD noMsg).content.length
          then "..." else "") := by
  rcases hu : unseenFrom u st tx.id allMsgs with _ | ⟨first, rest⟩
  · exact absurd hu hne
  · have hmem1 : first ∈ unseenFrom u st tx.id allMsgs := by
      rw [hu]; exact List.mem_cons_self first rest
    have hmemf : first ∈ List.filter (fun m => decide (m.senderId ≠ u))
        (fetchedFor st tx.id allMsgs) := hmem1
    have hsender : first.senderId ≠ u := by
      have := List.of_mem_filter hmemf
      simpa using this
    have hmema : first ∈ allMsgs :=
      mem_of_mem_fetchNewMessages (List.mem_of_mem_filter hmemf)
    have htitle : (if tx.buyerId = first.senderId then tx.buyerName else tx.sellerName) =
        (if u = tx.buyerId then tx.sellerName else tx.buyerName) := by
      rcases hparty with hb | hs
      · have hsid : first.senderId = tx.sellerId := by
          rcases hsenders first hmema with h1 | h1
          · exact absurd (h1.trans hb.symm) hsender
          · exact h1
        rw [hsid, if_neg hdistinct, if_pos hb]
      · have hsid : first.senderId = tx.buyerId := by
          rcases hsenders first hmema with h1 | h1
          · exact h1
          · exact absurd (h1.trans hs.symm) hsender
        rw [hsid, if_pos rfl, if_neg (fun hc => hdistinct (hc.symm.trans hs))]
    refine ⟨?_, ?_, ?_, ?_⟩
    · simp [checkTransactionStep, hact, hu]
    · simp only [hu, List.headD_cons, toastFor]
      rw [htitle]
    · rfl
    · rfl

/-- Closed witness for `counterpart_notification` on the mixed fixture. -/
theorem counterpart_notification_witness :
    (checkTransactionStep "u_buyer" st0 txA msgsMixed).1 =
      some (toastFor txA ((unseenFrom "u_buyer" st0 "T1" msgsMixed).headD noMsg)) ∧
    (toastFor txA ((unseenFrom "u_buyer" st0 "T1" msgsMixed).headD noMsg)).title =
      "New message from " ++
        (if "u_buyer" = txA.buyerId then txA.sellerName else txA.buyerName) ∧
    (toastFor txA ((unseenFrom "u_buyer" st0 "T1" msgsMixed).headD noMsg)).actionUrl =
      "/chat/" ++ txA.id ∧
    (toastFor txA ((unseenFrom "u_buyer" st0 "T1" msgsMixed).headD noMsg)).message =
      ((unseenFrom "u_buyer" st0 "T1" msgsMixed).headD noMsg).content.take 50 ++
        (if 50 < ((unseenFrom "u_buyer" st0 "T1" msgsMixed).headD noMsg).content.length
          then "..." else "") :=
  counterpart_notification "u_buyer" st0 txA msgsMixed (by decide) (by decide)
    (Or.inl rfl) (by decide) (by decide)

/-- Claim C10: for a party to the transaction the messages/new endpoint
returns at most 50 messages in ascending `createdAt` order, and when more
than 50 messages pass the time filter the newest ones are the omitted
ones: every omitted message is at least as new as every returned one. -/
theorem messagesNew_capped_ascending (uid buyerId sellerId : String)
    (afterTs : Option Int) (allMsgs : List Msg)
    (hparty : buyerId = uid ∨ sellerId = uid) :
    ∃ ms,
      messagesNewGET (some uid) (some (buyerId, sellerId)) afterTs allMsgs = .ok ms ∧
      ms = (List.insertionSort timeLE (newMessagesFilter afterTs allMsgs)).take 50 ∧
      ms.length ≤ 50 ∧
      List.Sorted timeLE ms ∧
      (∀ m1 ∈ ms,
        ∀ m2 ∈ (List.insertionSort timeLE (newMessagesFilter afterTs allMsgs)).drop 50,
          m1.createdAt ≤ m2.createdAt) := by
  have hg : ¬(buyerId ≠ uid ∧ sellerId ≠ uid) := by
    rcases hparty with h | h <;> simp [h]
  have hsorted : List.Sorted timeLE
      (List.insertionSort timeLE (newMessagesFilter afterTs allMsgs)) :=
    List.sorted_insertionSort timeLE _
  refine ⟨fetchNewMessages afterTs allMsgs, ?_, rfl, ?_, ?_, ?_⟩
  · simp [messagesNewGET, hg]
  · unfold fetchNewMessages
    rw [List.length_take]
    exact min_le_left _ _
  · exact List.Pairwise.sublist (List.take_sublist _ _) hsorted
  · intro m1 h1 m2 h2
    have hsplit := hsorted
    rw [← List.take_append_drop 50
      (List.insertionSort timeLE (newMessagesFilter afterTs allMsgs))] at hsplit
    exact (List.pairwise_append.mp hsplit).2.2 m1 h1 m2 h2

/-- Closed witness for `messagesNew_capped_ascending` on the mixed
fixture. -/
theorem messagesNew_capped_ascending_witness :
    ∃ ms,
      messagesNewGET (some "u_buyer") (some ("u_buyer", "u_seller")) none msgsMixed =
        .ok ms ∧
      ms = (List.insertionSort timeLE (newMessagesFilter none msgsMixed)).take 50 ∧
      ms.length ≤ 50 ∧
      List.Sorted timeLE ms ∧
      (∀ m1 ∈ ms,
        ∀ m2 ∈ (List.insertionSort timeLE (newMessagesFilter none msgsMixed)).drop 50,
          m1.createdAt ≤ m2.createdAt) :=
  messagesNew_capped_ascending "u_buyer" "u_buyer" "u_seller" none msgsMixed (Or.inl rfl)

end QuickGrab
